import Mathlib

/-!
Verification of the AgroMind geospatial feature-resolution pipeline.

Shallow embedding of the Python sources:
- `src/climate_utils.py` / `src/train_model/climate_utils.py`
  (`get_weighted_climate`, `kelvin_to_celsius`, `dewpoint_to_humidity`,
  `map_texture_to_soil_type` with a texture-hint argument);
- `src/train_model/soil_utils.py` (`get_soil_data_with_fallback`,
  `map_texture_to_soil_type`, `encode_soil_type` with the
  alphabetically-fitted label encoder);
- `src/soil_utils.py` (`get_partial_soil_data`);
- `src/main.py` (`prepare_input_vector`).

Numbers are modelled by ℚ (the Python code uses IEEE doubles; every claim
under study is about exact formulas, orderings and control flow, none about
rounding error).  External effects (Earth-Engine fetches, SoilGrids
requests) are passed in as function or value parameters: a `none` models a
call that raised or returned null.  Python's `round(x, 2)` is modelled by
`round2`; whether ties round half-to-even (Python) or half-up (Mathlib's
`round`) is immaterial to every statement below, since both sides of each
equation use the same `round2`.
-/

namespace AgroMind

/-! ## Climate aggregation (`get_weighted_climate`) -/

/-- Python `round(x, 2)`. -/
def round2 (x : ℚ) : ℚ := (round (100 * x) : ℤ) / 100

/-- Function `kelvin_to_celsius` from `climate_utils.py`. -/
def kelvin_to_celsius (k : ℚ) : ℚ := k - 273.15

/-- Function `dewpoint_to_humidity` from `climate_utils.py`: Magnus-style relation
clamped to [0, 100]. -/
def dewpoint_to_humidity (temp_c dewpoint_c : ℚ) : ℚ :=
  max 0 (min 100 (100 * (112 - 0.1 * temp_c + dewpoint_c) / (112 + 0.9 * temp_c)))

/-- The per-year recency weight `0.1 + 0.9 * ((y - 2000) / (2024 - 2000))`
from `get_weighted_climate`. -/
def year_weight (y : ℕ) : ℚ := 0.1 + 0.9 * (((y : ℚ) - 2000) / (2024 - 2000))

/-- The year list `years = list(range(2000, 2025))`. -/
def climate_years : List ℕ := List.range' 2000 25

/-- The `{"temperature": ..., "humidity": ...}` result dictionary. -/
structure ClimateResult where
  temperature : ℚ
  humidity : ℚ
deriving Repr, DecidableEq

/-- One iteration of the year loop of `get_weighted_climate`.  `T y` / `D y`
give the year's fetched mean temperature / dewpoint (Kelvin); `none` models
an exception or a null value.  A year contributes to the three running sums
`(temp_sum, dew_sum, total_weight)` only when both values are present. -/
def climate_step (T D : ℕ → Option ℚ) (acc : ℚ × ℚ × ℚ) (y : ℕ) : ℚ × ℚ × ℚ :=
  match T y, D y with
  | some t, some d =>
      (acc.1 + t * year_weight y, acc.2.1 + d * year_weight y, acc.2.2 + year_weight y)
  | _, _ => acc

/-- The year loop of `get_weighted_climate`, started from `0, 0, 0`. -/
def climate_accum (T D : ℕ → Option ℚ) (years : List ℕ) : ℚ × ℚ × ℚ :=
  years.foldl (climate_step T D) (0, 0, 0)

/-- Function `get_weighted_climate` from `climate_utils.py`, with the per-year
fetches abstracted into `T` and `D` and the year list a parameter (the code
always passes `climate_years`).  Returns `none` where the Python raises
`ValueError` (`total_weight == 0`). -/
def get_weighted_climate (T D : ℕ → Option ℚ) (years : List ℕ) : Option ClimateResult :=
  let acc := climate_accum T D years
  if acc.2.2 = 0 then none
  else
    let temp_c := kelvin_to_celsius (acc.1 / acc.2.2)
    let dew_c := kelvin_to_celsius (acc.2.1 / acc.2.2)
    some ⟨round2 temp_c, round2 (dewpoint_to_humidity temp_c dew_c)⟩

/-- The years whose fetch yields both a temperature and a dewpoint. -/
def contributing (T D : ℕ → Option ℚ) (years : List ℕ) : List ℕ :=
  years.filter fun y => (T y).isSome && (D y).isSome

/-- Weighted temperature sum over the contributing years. -/
def temp_wsum (T D : ℕ → Option ℚ) (years : List ℕ) : ℚ :=
  ((contributing T D years).map fun y => (T y).getD 0 * year_weight y).sum

/-- Weighted dewpoint sum over the contributing years. -/
def dew_wsum (T D : ℕ → Option ℚ) (years : List ℕ) : ℚ :=
  ((contributing T D years).map fun y => (D y).getD 0 * year_weight y).sum

/-- Total accumulated weight over the contributing years. -/
def weight_total (T D : ℕ → Option ℚ) (years : List ℕ) : ℚ :=
  ((contributing T D years).map year_weight).sum

/-! ## Expanding soil fallback search (`get_soil_data_with_fallback`) -/

/-- The fixed 8-direction offset list probed at radius `r`
(`train_model/soil_utils.py`, `get_soil_data_with_fallback`). -/
def soil_offsets (r : ℚ) : List (ℚ × ℚ) :=
  [(r, 0), (-r, 0), (0, r), (0, -r), (r, r), (-r, -r), (r, -r), (-r, r)]

/-- The radius list `[step * i for i in range(1, int(max_radius / step) + 1)]`.  Python's
`int` truncates toward zero; for the nonnegative quotients that arise with
`0 < step ≤ max_radius` this is the floor, and for a negative quotient both
truncation and floor make the range empty. -/
def search_radii (max_radius step : ℚ) : List ℚ :=
  (List.range' 1 ⌊max_radius / step⌋.toNat).map fun i : ℕ => step * (i : ℚ)

/-- Function `get_soil_data_with_fallback` from `train_model/soil_utils.py` with the
underlying point query (`get_soil_data`) abstracted: `query la lo = some s`
iff the SoilGrids response at `(la, lo)` has at least one non-null property
(that is `get_soil_data`'s own contract — it returns its dictionary only
when `any(v is not None ...)`).  The nested loops with early `return`
become nested `findSome?`. -/
def get_soil_data_with_fallback {α : Type} (query : ℚ → ℚ → Option α)
    (lat lon max_radius step : ℚ) : Option α :=
  match query lat lon with
  | some s => some s
  | none =>
      (search_radii max_radius step).findSome? fun r =>
        (soil_offsets r).findSome? fun o => query (lat + o.1) (lon + o.2)

/-- The full probe sequence: the exact point, then every radius's offsets in
order. -/
def probe_points (lat lon max_radius step : ℚ) : List (ℚ × ℚ) :=
  (lat, lon) ::
    ((search_radii max_radius step).map fun r =>
      (soil_offsets r).map fun o => (lat + o.1, lon + o.2)).flatten

/-! ## Texture classification -/

/-- Python `str.capitalize()`: first character upper-cased, the rest
lower-cased. -/
def pyCapitalize (s : String) : String :=
  match s.toList with
  | [] => ""
  | c :: rest => String.mk (c.toUpper :: rest.map Char.toLower)

/-- Rules 4–9 of the threshold cascade of `map_texture_to_soil_type` in
`src/climate_utils.py`, reached once `clay ≤ 40`, `sand ≤ 70`, `silt ≤ 40`
have been established. -/
def hint_cascade_rest (clay sand silt : ℚ) : String :=
  if 20 < clay ∧ clay ≤ 40 ∧ 20 < sand ∧ sand ≤ 70 ∧ 20 < silt ∧ silt ≤ 70 then "Loamy"
  else if clay > 20 ∧ sand < 20 ∧ silt < 20 then "Black"
  else if sand > 60 ∧ clay < 10 then "Red"
  else if silt > 50 ∧ clay < 10 ∧ sand < 20 then "Peaty"
  else if sand > 20 ∧ silt > 20 ∧ clay < 10 then "Saline"
  else "Unknown"

/-- The threshold cascade of `map_texture_to_soil_type` in
`src/climate_utils.py`, on the lazy Python semantics: each comparison
evaluates its left operand only when reached, so a null (`none`) raises
(`.error`) exactly when the cascade first compares it.  `clay` is compared
by rule 1, `sand` first by rule 2, `silt` first by rule 3; past rule 3 all
three are known non-null. -/
def hint_cascade (clay sand silt : Option ℚ) : Except Unit String :=
  match clay with
  | none => .error ()
  | some c =>
      if c > 40 then .ok "Clay"
      else
        match sand with
        | none => .error ()
        | some sa =>
            if sa > 70 then .ok "Sandy"
            else
              match silt with
              | none => .error ()
              | some si =>
                  if si > 40 then .ok "Silty"
                  else .ok (hint_cascade_rest c sa si)

/-- Function `map_texture_to_soil_type(texture_class, clay, sand, silt)` from
`src/climate_utils.py`.  Python: `if texture_class != "Unknown": return
texture_class.capitalize()`, else the cascade.  A `None` texture hint also
enters the first branch (`None != "Unknown"` is true) and then
`None.capitalize()` raises `AttributeError`, modelled by `.error`. -/
def map_texture_with_hint (texture_class : Option String) (clay sand silt : Option ℚ) :
    Except Unit String :=
  match texture_class with
  | none => .error ()
  | some tc => if tc ≠ "Unknown" then .ok (pyCapitalize tc) else hint_cascade clay sand silt

/-- The cascade exactly as the claim words it (rules 1–9, first match
wins), for comparison with the source cascade. -/
def claimed_cascade (clay sand silt : ℚ) : String :=
  if clay > 40 then "Clay"
  else if sand > 70 then "Sandy"
  else if silt > 40 then "Silty"
  else if 20 < clay ∧ clay ≤ 40 ∧ 20 < sand ∧ sand ≤ 70 ∧ 20 < silt ∧ silt ≤ 70 then "Loamy"
  else if clay > 20 ∧ sand < 20 ∧ silt < 20 then "Black"
  else if sand > 60 ∧ clay < 10 then "Red"
  else if silt > 50 ∧ clay < 10 ∧ sand < 20 then "Peaty"
  else if sand > 20 ∧ silt > 20 ∧ clay < 10 then "Saline"
  else "Unknown"

/-- Function `map_texture_to_soil_type(clay, sand, silt)` from
`src/train_model/soil_utils.py` (the version `src/main.py` imports):
`None` in any of the three arguments yields `"Unknown"`, then its own
threshold cascade. -/
def map_texture_to_soil_type3 (clay sand silt : Option ℚ) : String :=
  match clay, sand, silt with
  | some c, some sa, some si =>
      if c > 40 then "Clay"
      else if sa > 70 then "Sandy"
      else if si > 40 then "Silty"
      else if 20 < c ∧ c < 35 ∧ 20 < sa ∧ sa < 70 ∧ 20 < si ∧ si < 70 then "Loamy"
      else if c < 20 ∧ sa < 52 ∧ si > 28 then "Peaty"
      else if c > 20 ∧ sa < 20 ∧ si < 20 then "Black"
      else if sa > 60 ∧ c < 10 then "Red"
      else if sa > 20 ∧ si > 20 ∧ c < 10 then "Saline"
      else "Unknown"
  | _, _, _ => "Unknown"

/-! ## Soil-type label encoding -/

/-- The fitted classes: `LabelEncoder().fit(SOIL_TYPES)` sorts the labels; this is
`sorted(["Black","Red","Peaty","Saline","Sandy","Clay","Loamy","Silty",
"Unknown"])` from `train_model/soil_utils.py`. -/
def soil_types_sorted : List String :=
  ["Black", "Clay", "Loamy", "Peaty", "Red", "Saline", "Sandy", "Silty", "Unknown"]

/-- Function `encode_soil_type(label)` from `train_model/soil_utils.py`:
`encoder.transform([label])[0]`, falling back to the code of `"Unknown"`
(which is 8, the last sorted label) when `label` is not a known class. -/
def encode_soil_type (label : String) : ℕ :=
  match soil_types_sorted.indexOf? label with
  | some i => i
  | none => 8

/-! ## SoilGrids point query (`get_partial_soil_data`, `src/soil_utils.py`) -/

/-- The property list requested from SoilGrids
(`properties = ["phh2o", "nitrogen", "clay", "sand", "silt"]`). -/
def soilgrids_properties : List String := ["phh2o", "nitrogen", "clay", "sand", "silt"]

/-- One entry of a layer's `depths` array: its `label` and the optional
`values` dictionary with an optional `mean`. -/
structure DepthInfo where
  label : String
  values : Option (Option ℚ)
deriving Repr, DecidableEq

/-- One entry of the response's `properties.layers` array.  `name` and
`depths` model optional JSON keys; `d_factor` is
`layer.get("unit_measure", {}).get("d_factor", 1)`. -/
structure SoilLayer where
  name : Option String
  depths : Option (List DepthInfo)
  d_factor : Option ℚ
deriving Repr, DecidableEq

/-- A parsed 200-response body: `properties.layers` when present. -/
structure SoilApiResponse where
  layers : Option (List SoilLayer)
deriving Repr, DecidableEq

/-- The per-layer extraction step of `get_partial_soil_data`: skip layers
with no name, a name outside the property list, no depths, no `0-5cm`
depth, no `values`, or a null `mean`; otherwise record
`mean / d_factor` under the property name.  A zero `d_factor` raises
`ZeroDivisionError` (caught by the enclosing handler), modelled as
`.error`.  New entries are prepended, so a later layer with the same name
shadows an earlier one, as in a Python dict. -/
def extract_layer (acc : List (String × ℚ)) (layer : SoilLayer) :
    Except Unit (List (String × ℚ)) :=
  match layer.name with
  | none => .ok acc
  | some prop =>
      if prop ∈ soilgrids_properties then
        match layer.depths with
        | none => .ok acc
        | some depths =>
            match depths.find? (fun d => d.label = "0-5cm") with
            | none => .ok acc
            | some target =>
                match target.values with
                | none => .ok acc
                | some none => .ok acc
                | some (some mean) =>
                    let df := layer.d_factor.getD 1
                    if df = 0 then .error ()
                    else .ok ((prop, mean / df) :: acc)
      else .ok acc

/-- The extraction loop over all layers. -/
def extract_soil_data (layers : List SoilLayer) : Except Unit (List (String × ℚ)) :=
  layers.foldlM extract_layer []

/-- The `processed_data` dictionary assembled at the end of
`get_partial_soil_data`: every field non-null, missing properties filled
with fixed constants, and `p` / `k` hard-coded (SoilGrids is never asked
for phosphorus or potassium). -/
structure ProcessedSoil where
  ph : ℚ
  n : ℚ
  p : ℚ
  k : ℚ
  clay_percent : ℚ
  sand_percent : ℚ
  silt_percent : ℚ
deriving Repr, DecidableEq

/-- The final assembly of `get_partial_soil_data`. -/
def process_soil_data (sd : List (String × ℚ)) : ProcessedSoil :=
  { ph := (sd.lookup "phh2o").getD 7.0
    n := (sd.lookup "nitrogen").getD 1.0
    p := 20.0
    k := 200.0
    clay_percent := (sd.lookup "clay").getD 20.0
    sand_percent := (sd.lookup "sand").getD 40.0
    silt_percent := (sd.lookup "silt").getD 40.0 }

/-- Function `get_partial_soil_data` from `src/soil_utils.py`, with the HTTP call
abstracted: `resp = none` models a non-200 status or a request exception.
Returns `none` when the response lacks `properties.layers`, the layer array
is empty, the extraction raises, or no property was extracted. -/
def get_partial_soil_data (resp : Option SoilApiResponse) : Option ProcessedSoil :=
  match resp with
  | none => none
  | some r =>
      match r.layers with
      | none => none
      | some [] => none
      | some layers =>
          match extract_soil_data layers with
          | .error _ => none
          | .ok [] => none
          | .ok sd => some (process_soil_data sd)

/-! ## Feature-vector builder (`prepare_input_vector`, `src/main.py`)

The soil dictionary is duck-typed in the Python code: `main.py` probes the
keys `clay_percent/sand_percent/silt_percent`, falls back to
`clay/sand/silt`, and reads the chemistry keys with `dict.get(key,
default)`.  Key *presence* and value *nullness* are distinct there, so each
key is modelled as `Option (Option ℚ)`: the outer layer is presence, the
inner the (possibly null) value. -/

/-- The soil dictionary as `main.py` consumes it. -/
structure SoilDict where
  ph : Option (Option ℚ)
  n : Option (Option ℚ)
  p : Option (Option ℚ)
  k : Option (Option ℚ)
  clay_percent : Option (Option ℚ)
  sand_percent : Option (Option ℚ)
  silt_percent : Option (Option ℚ)
  clay : Option (Option ℚ)
  sand : Option (Option ℚ)
  silt : Option (Option ℚ)
deriving Repr, DecidableEq

/-- Python `dict.get(key, default)`: the default applies only when the key
is absent; a present-but-null value is returned as null. -/
def pyGet (field : Option (Option ℚ)) (dflt : ℚ) : Option ℚ :=
  match field with
  | none => some dflt
  | some v => v

/-- The default soil dictionary substituted by `main.py` when soil
resolution yields nothing (all seven keys present and non-null; the
`clay/sand/silt` aliases are not in it). -/
def default_soil : SoilDict :=
  { ph := some (some 6.5), n := some (some 15.0), p := some (some 25.0)
    k := some (some 180.0)
    clay_percent := some (some 20.0), sand_percent := some (some 40.0)
    silt_percent := some (some 40.0)
    clay := none, sand := none, silt := none }

/-- The soil-label computation of `prepare_input_vector`: if the
`*_percent` keys are all present their (possibly null) values go to the
three-argument classifier; else if the `clay/sand/silt` keys are all
present those go; else the label is `"Loamy"`. -/
def compute_soil_label (soil : SoilDict) : String :=
  if soil.clay_percent.isSome ∧ soil.sand_percent.isSome ∧ soil.silt_percent.isSome then
    map_texture_to_soil_type3 soil.clay_percent.join soil.sand_percent.join soil.silt_percent.join
  else if soil.clay.isSome ∧ soil.sand.isSome ∧ soil.silt.isSome then
    map_texture_to_soil_type3 soil.clay.join soil.sand.join soil.silt.join
  else "Loamy"

/-- The `input_vector` list literal of `prepare_input_vector`, before the
null check: `[encoded_soil, ph, k, p, n, temperature, humidity]` with the
chemistry read through `dict.get` and its per-key defaults. -/
def main_vector (climate : ClimateResult) (soil : SoilDict) : List (Option ℚ) :=
  [some (encode_soil_type (compute_soil_label soil) : ℚ),
   pyGet soil.ph 6.5,
   pyGet soil.k 180.0,
   pyGet soil.p 25.0,
   pyGet soil.n 15.0,
   some climate.temperature,
   some climate.humidity]

/-- The successful result of `prepare_input_vector` (the `location_info`
display metadata is omitted: it never influences the vector or the label). -/
structure PrepResult where
  vector : List (Option ℚ)
  soil_label : String
deriving Repr, DecidableEq

/-- The tail of `prepare_input_vector`: assemble `input_vector`, raise if
any element is `None`, otherwise return it with the soil label. -/
def build_from_soil (climate_data : ClimateResult) (soil_data : SoilDict) :
    Except String PrepResult :=
  if (main_vector climate_data soil_data).any (·.isNone) then
    .error "Some required soil or climate data is missing."
  else .ok ⟨main_vector climate_data soil_data, compute_soil_label soil_data⟩

/-- The body of `prepare_input_vector` after input validation.
`climate_arg` is the outcome of the `get_weighted_climate` call (`none` =
it raised, replaced by the `{20.0, 70.0}` default); `soil_arg` is the
outcome of the `get_partial_soil_data` call (`none` = it raised or
returned `None`). -/
def prepare_core (climate_arg : Option ClimateResult) (soil_arg : Option SoilDict) :
    Except String PrepResult :=
  let climate_data := climate_arg.getD ⟨20.0, 70.0⟩
  match soil_arg with
  | none =>
      if climate_data.temperature < -5 then
        .error "This region is unplantable due to extreme climate and missing soil data."
      else build_from_soil climate_data default_soil
  | some soil_data => build_from_soil climate_data soil_data

/-- Function `prepare_input_vector(lat, lon, month)` from `src/main.py`: the three
range validations, then the pipeline body. -/
def prepare_input_vector (lat lon : ℚ) (month : ℤ)
    (climate_arg : Option ClimateResult) (soil_arg : Option SoilDict) :
    Except String PrepResult :=
  if ¬(1 ≤ month ∧ month ≤ 12) then .error "Month must be between 1 and 12."
  else if ¬(-90 ≤ lat ∧ lat ≤ 90) then .error "Latitude must be between -90 and 90."
  else if ¬(-180 ≤ lon ∧ lon ≤ 180) then .error "Longitude must be between -180 and 180."
  else prepare_core climate_arg soil_arg

/-- The three validation messages of `prepare_input_vector`. -/
def validation_messages : List String :=
  ["Month must be between 1 and 12.",
   "Latitude must be between -90 and 90.",
   "Longitude must be between -180 and 180."]

/-! ## Lemmas: the climate accumulation is a weighted sum over the
contributing years -/

theorem climate_foldl_eq (T D : ℕ → Option ℚ) (years : List ℕ) :
    ∀ a b c : ℚ,
      years.foldl (climate_step T D) (a, b, c) =
        (a + temp_wsum T D years, b + dew_wsum T D years, c + weight_total T D years) := by
  induction years with
  | nil =>
      intro a b c
      simp [temp_wsum, dew_wsum, weight_total, contributing]
  | cons y ys ih =>
      intro a b c
      rcases hT : T y with _ | t <;> rcases hD : D y with _ | d <;>
        simp only [List.foldl_cons, climate_step, hT, hD] <;>
        rw [ih] <;>
        simp [temp_wsum, dew_wsum, weight_total, contributing, List.filter_cons, hT, hD] <;>
        refine ⟨by ring, by ring, by ring⟩

theorem climate_accum_eq (T D : ℕ → Option ℚ) (years : List ℕ) :
    climate_accum T D years =
      (temp_wsum T D years, dew_wsum T D years, weight_total T D years) := by
  have h := climate_foldl_eq T D years 0 0 0
  simpa [climate_accum] using h

theorem year_weight_pos {y : ℕ} (h : 2000 ≤ y) : 0 < year_weight y := by
  have h1 : (2000 : ℚ) ≤ (y : ℚ) := by exact_mod_cast h
  have h2 : (0 : ℚ) ≤ ((y : ℚ) - 2000) / (2024 - 2000) := by
    apply div_nonneg
    · linarith
    · norm_num
  unfold year_weight
  nlinarith

theorem weight_total_pos (T D : ℕ → Option ℚ)
    (hne : contributing T D climate_years ≠ []) :
    0 < weight_total T D climate_years := by
  unfold weight_total
  apply List.sum_pos
  · intro x hx
    rw [List.mem_map] at hx
    obtain ⟨y, hy, rfl⟩ := hx
    apply year_weight_pos
    have hmem : y ∈ climate_years := List.mem_of_mem_filter hy
    have := (List.mem_range'_1.mp hmem).1
    exact this
  · simpa [List.map_eq_nil_iff] using hne

theorem get_weighted_climate_eq (T D : ℕ → Option ℚ) (years : List ℕ) :
    get_weighted_climate T D years =
      if weight_total T D years = 0 then none
      else
        some ⟨round2 (kelvin_to_celsius (temp_wsum T D years / weight_total T D years)),
              round2 (dewpoint_to_humidity
                (kelvin_to_celsius (temp_wsum T D years / weight_total T D years))
                (kelvin_to_celsius (dew_wsum T D years / weight_total T D years)))⟩ := by
  unfold get_weighted_climate
  rw [climate_accum_eq]

/-- Claim C1: whenever at least one year in [2000, 2024] yields both a
temperature and a dewpoint sample, `get_weighted_climate` returns
`temperature = round((Σ w_y T_y / Σ w_y) − 273.15, 2)` and
`humidity = round(clamp(0, 100, 100(112 − 0.1 t_c + d_c)/(112 + 0.9 t_c)), 2)`,
the sums ranging over exactly the years with both samples present, with
`w_y = 0.1 + 0.9 (y − 2000)/24`. -/
theorem climate_weighted_mean_spec (T D : ℕ → Option ℚ)
    (h : contributing T D climate_years ≠ []) :
    get_weighted_climate T D climate_years =
      some { temperature :=
               round2 (temp_wsum T D climate_years / weight_total T D climate_years - 273.15)
             humidity :=
               round2 (max 0 (min 100
                 (100 * (112
                     - 0.1 * (temp_wsum T D climate_years / weight_total T D climate_years - 273.15)
                     + (dew_wsum T D climate_years / weight_total T D climate_years - 273.15))
                   / (112 + 0.9 * (temp_wsum T D climate_years / weight_total T D climate_years - 273.15))))) } ∧
    (∀ y : ℕ, year_weight y = 0.1 + 0.9 * (((y : ℚ) - 2000) / 24)) := by
  constructor
  · rw [get_weighted_climate_eq, if_neg (weight_total_pos T D h).ne']
    rfl
  · intro y
    unfold year_weight
    norm_num

def climate_T_wit : ℕ → Option ℚ := fun y => if y = 2024 then some 300 else none

def climate_D_wit : ℕ → Option ℚ := fun y => if y = 2024 then some 290 else none

/-- Witness for C1 at a source yielding data for 2024 only. -/
theorem climate_weighted_mean_spec_witness :
    get_weighted_climate climate_T_wit climate_D_wit climate_years =
      some { temperature :=
               round2 (temp_wsum climate_T_wit climate_D_wit climate_years /
                 weight_total climate_T_wit climate_D_wit climate_years - 273.15)
             humidity :=
               round2 (max 0 (min 100
                 (100 * (112
                     - 0.1 * (temp_wsum climate_T_wit climate_D_wit climate_years /
                         weight_total climate_T_wit climate_D_wit climate_years - 273.15)
                     + (dew_wsum climate_T_wit climate_D_wit climate_years /
                         weight_total climate_T_wit climate_D_wit climate_years - 273.15))
                   / (112 + 0.9 * (temp_wsum climate_T_wit climate_D_wit climate_years /
                       weight_total climate_T_wit climate_D_wit climate_years - 273.15))))) } ∧
    (∀ y : ℕ, year_weight y = 0.1 + 0.9 * (((y : ℚ) - 2000) / 24)) :=
  climate_weighted_mean_spec climate_T_wit climate_D_wit (by decide)

/-- Claim C9: for a fixed deterministic assignment of per-year samples, the
aggregate is invariant under any permutation of the year iteration order. -/
theorem climate_order_invariant (T D : ℕ → Option ℚ) (ys zs : List ℕ)
    (hp : ys.Perm zs) :
    get_weighted_climate T D ys = get_weighted_climate T D zs := by
  have hc : (contributing T D ys).Perm (contributing T D zs) := hp.filter _
  have h1 : temp_wsum T D ys = temp_wsum T D zs := (hc.map _).sum_eq
  have h2 : dew_wsum T D ys = dew_wsum T D zs := (hc.map _).sum_eq
  have h3 : weight_total T D ys = weight_total T D zs := (hc.map _).sum_eq
  rw [get_weighted_climate_eq, get_weighted_climate_eq, h1, h2, h3]

/-- Witness for C9 on a shuffled year list. -/
theorem climate_order_invariant_witness :
    get_weighted_climate climate_T_wit climate_D_wit [2000, 2005, 2010, 2024] =
      get_weighted_climate climate_T_wit climate_D_wit [2024, 2000, 2010, 2005] :=
  climate_order_invariant climate_T_wit climate_D_wit _ _ (by decide)

/-- Claim C5 (amended): the aggregator fails exactly when every year in
[2000, 2024] is skipped (a year with missing data is silently skipped and
never aborts the estimate), but the pipeline caller does *not* surface this
as a hard failure: `prepare_input_vector` treats a raised climate error
identically to a successful `{temperature: 20.0, humidity: 70.0}` default
estimate. -/
theorem no_climate_data_swallowed :
    (∀ T D : ℕ → Option ℚ,
        get_weighted_climate T D climate_years = none ↔
          ∀ y ∈ climate_years, T y = none ∨ D y = none) ∧
    (∀ (lat lon : ℚ) (month : ℤ) (soil_arg : Option SoilDict),
        prepare_input_vector lat lon month none soil_arg =
          prepare_input_vector lat lon month (some ⟨20.0, 70.0⟩) soil_arg) := by
  constructor
  · intro T D
    rw [get_weighted_climate_eq]
    constructor
    · intro h
      by_cases hw : weight_total T D climate_years = 0
      · have hc : contributing T D climate_years = [] := by
          by_contra hne
          exact absurd hw (weight_total_pos T D hne).ne'
        intro y hy
        have hny := List.filter_eq_nil_iff.mp hc y hy
        rcases hT : T y with _ | t
        · exact Or.inl rfl
        rcases hD : D y with _ | d
        · exact Or.inr rfl
        · exact absurd (by simp [hT, hD]) hny
      · rw [if_neg hw] at h
        exact absurd h (by simp)
    · intro hall
      have hc : contributing T D climate_years = [] := by
        apply List.filter_eq_nil_iff.mpr
        intro y hy
        rcases hall y hy with h | h <;> simp [h]
      have hw : weight_total T D climate_years = 0 := by
        unfold weight_total
        rw [hc]
        simp
      rw [if_pos hw]
  · intro lat lon month soil_arg
    rfl

theorem encode_unknown_eq : encode_soil_type "Unknown" = 8 := by decide

theorem encode_loamy_eq : encode_soil_type "Loamy" = 2 := by decide

theorem compute_soil_label_default : compute_soil_label default_soil = "Unknown" := by
  norm_num [compute_soil_label, default_soil, map_texture_to_soil_type3, Option.join]

theorem main_vector_default (cl : ClimateResult) :
    main_vector cl default_soil =
      [some 8, some 6.5, some 180, some 25, some 15, some cl.temperature, some cl.humidity] := by
  unfold main_vector
  rw [compute_soil_label_default, encode_unknown_eq]
  norm_num [default_soil, pyGet]

theorem prepare_input_vector_valid (lat lon : ℚ) (month : ℤ)
    (c : Option ClimateResult) (s : Option SoilDict)
    (hm : 1 ≤ month ∧ month ≤ 12) (hla : -90 ≤ lat ∧ lat ≤ 90)
    (hlo : -180 ≤ lon ∧ lon ≤ 180) :
    prepare_input_vector lat lon month c s = prepare_core c s := by
  unfold prepare_input_vector
  rw [if_neg (not_not_intro hm), if_neg (not_not_intro hla), if_neg (not_not_intro hlo)]

/-- Claim C5 counterexample: a coordinate whose every yearly fetch is absent
makes `get_weighted_climate` fail, yet `prepare_input_vector` succeeds with
the `{20.0, 70.0}` default climate instead of propagating the failure. -/
theorem no_climate_data_swallowed_cex :
    prepare_input_vector 0 0 6
        (get_weighted_climate (fun _ => none) (fun _ => none) climate_years)
        (some default_soil) =
      .ok ⟨[some 8, some 6.5, some 180, some 25, some 15, some 20, some 70], "Unknown"⟩ := by
  have h : get_weighted_climate (fun _ => none) (fun _ => none) climate_years = none := by
    rw [get_weighted_climate_eq]
    have hc : contributing (fun _ => none) (fun _ => none) climate_years = [] := by
      simp [contributing]
    rw [if_pos (by unfold weight_total; rw [hc]; simp)]
  rw [h, prepare_input_vector_valid _ _ _ _ _ (by norm_num) (by norm_num) (by norm_num)]
  unfold prepare_core
  norm_num [build_from_soil, main_vector_default, compute_soil_label_default]

theorem build_from_soil_ok (cd : ClimateResult) (sd : SoilDict) (r : PrepResult)
    (h : build_from_soil cd sd = .ok r) :
    r.vector = main_vector cd sd ∧ r.soil_label = compute_soil_label sd ∧
      r.vector.length = 7 ∧ ∀ x ∈ r.vector, x.isSome := by
  unfold build_from_soil at h
  split at h
  · exact absurd h (by simp)
  · rename_i hno
    cases h
    refine ⟨rfl, rfl, by simp [main_vector], ?_⟩
    intro x hx
    rcases x with _ | v
    · exact absurd (List.any_eq_true.mpr ⟨none, hx, rfl⟩) hno
    · rfl

/-- Claim C4: whenever `prepare_input_vector` succeeds, the returned vector
is exactly the 7-element list `[encoded_soil_type, ph, k, p, n,
temperature_celsius, humidity_percent]`, each element either a resolved
value or its explicit default, and no element is null. -/
theorem feature_vector_shape (lat lon : ℚ) (month : ℤ)
    (c : Option ClimateResult) (s : Option SoilDict) (r : PrepResult)
    (h : prepare_input_vector lat lon month c s = .ok r) :
    r.vector =
      [some (encode_soil_type (compute_soil_label (s.getD default_soil)) : ℚ),
       pyGet (s.getD default_soil).ph 6.5,
       pyGet (s.getD default_soil).k 180.0,
       pyGet (s.getD default_soil).p 25.0,
       pyGet (s.getD default_soil).n 15.0,
       some (c.getD ⟨20.0, 70.0⟩).temperature,
       some (c.getD ⟨20.0, 70.0⟩).humidity] ∧
    r.soil_label = compute_soil_label (s.getD default_soil) ∧
    r.vector.length = 7 ∧
    ∀ x ∈ r.vector, x.isSome := by
  unfold prepare_input_vector at h
  split at h
  · exact absurd h (by simp)
  split at h
  · exact absurd h (by simp)
  split at h
  · exact absurd h (by simp)
  unfold prepare_core at h
  rcases s with _ | sd
  · simp only [Option.getD] at h ⊢
    split at h
    · exact absurd h (by simp)
    · exact build_from_soil_ok _ _ _ h
  · simp only [Option.getD] at h ⊢
    exact build_from_soil_ok _ _ _ h

def soil_dict_wit : SoilDict :=
  { ph := some (some 6.8), n := some (some 12), p := some (some 20)
    k := some (some 150)
    clay_percent := some (some 25), sand_percent := some (some 45)
    silt_percent := some (some 30)
    clay := none, sand := none, silt := none }

theorem compute_soil_label_wit : compute_soil_label soil_dict_wit = "Loamy" := by
  norm_num [compute_soil_label, soil_dict_wit, map_texture_to_soil_type3, Option.join]

def prep_result_wit : PrepResult :=
  ⟨[some 2, some 6.8, some 150, some 20, some 12, some 22, some 65], "Loamy"⟩

theorem prepare_input_vector_wit_eq :
    prepare_input_vector 41 29 6 (some ⟨22, 65⟩) (some soil_dict_wit) = .ok prep_result_wit := by
  rw [prepare_input_vector_valid _ _ _ _ _ (by norm_num) (by norm_num) (by norm_num)]
  unfold prepare_core build_from_soil
  dsimp only
  rw [show main_vector ((some (⟨22, 65⟩ : ClimateResult)).getD ⟨20.0, 70.0⟩) soil_dict_wit =
        [some 2, some 6.8, some 150, some 20, some 12, some 22, some 65] by
      unfold main_vector
      rw [compute_soil_label_wit, encode_loamy_eq]
      norm_num [soil_dict_wit, pyGet]]
  norm_num [prep_result_wit, compute_soil_label_wit]

/-- Witness for C4 at the spec's end-to-end example sample. -/
theorem feature_vector_shape_witness :
    prep_result_wit.vector =
      [some (encode_soil_type (compute_soil_label ((some soil_dict_wit).getD default_soil)) : ℚ),
       pyGet ((some soil_dict_wit).getD default_soil).ph 6.5,
       pyGet ((some soil_dict_wit).getD default_soil).k 180.0,
       pyGet ((some soil_dict_wit).getD default_soil).p 25.0,
       pyGet ((some soil_dict_wit).getD default_soil).n 15.0,
       some ((some (⟨22, 65⟩ : ClimateResult)).getD ⟨20.0, 70.0⟩).temperature,
       some ((some (⟨22, 65⟩ : ClimateResult)).getD ⟨20.0, 70.0⟩).humidity] ∧
    prep_result_wit.soil_label = compute_soil_label ((some soil_dict_wit).getD default_soil) ∧
    prep_result_wit.vector.length = 7 ∧
    ∀ x ∈ prep_result_wit.vector, x.isSome :=
  feature_vector_shape 41 29 6 (some ⟨22, 65⟩) (some soil_dict_wit) prep_result_wit
    prepare_input_vector_wit_eq

/-- Claim C6: when soil resolution yields no sample, the builder fails (with
the unplantable-region error) exactly when the resolved climate temperature
is below −5, and otherwise substitutes the default soil sample (ph 6.5,
n 15, p 25, k 180, texture 20/40/40) and succeeds. -/
theorem missing_soil_policy (lat lon : ℚ) (month : ℤ) (c : Option ClimateResult)
    (hm : 1 ≤ month ∧ month ≤ 12) (hla : -90 ≤ lat ∧ lat ≤ 90)
    (hlo : -180 ≤ lon ∧ lon ≤ 180) :
    ((c.getD ⟨20.0, 70.0⟩).temperature < -5 →
        prepare_input_vector lat lon month c none =
          .error "This region is unplantable due to extreme climate and missing soil data.") ∧
    (¬(c.getD ⟨20.0, 70.0⟩).temperature < -5 →
        prepare_input_vector lat lon month c none =
          .ok ⟨[some 8, some 6.5, some 180, some 25, some 15,
                some (c.getD ⟨20.0, 70.0⟩).temperature, some (c.getD ⟨20.0, 70.0⟩).humidity],
               "Unknown"⟩) := by
  rw [prepare_input_vector_valid lat lon month c none hm hla hlo]
  unfold prepare_core
  dsimp only
  constructor
  · intro ht
    rw [if_pos ht]
  · intro ht
    rw [if_neg ht]
    unfold build_from_soil
    rw [main_vector_default]
    norm_num [compute_soil_label_default]

/-- Witness for C6: a −10 °C climate with unresolved soil is rejected. -/
theorem missing_soil_policy_witness :
    prepare_input_vector 41 29 6 (some ⟨-10, 50⟩) none =
      .error "This region is unplantable due to extreme climate and missing soil data." :=
  (missing_soil_policy 41 29 6 (some ⟨-10, 50⟩) (by norm_num) (by norm_num) (by norm_num)).1
    (by norm_num [Option.getD])

/-- Claim C7 (amended): a chemistry field (ph, n, p, k) *absent* from the
soil dictionary is silently replaced by its per-field default (6.5, 15.0,
25.0, 180.0) and the build succeeds; but a chemistry field *present with a
null value* is not defaulted — `dict.get(key, default)` returns the null,
and the final null check makes the build fail. -/
theorem chemistry_defaults (lat lon : ℚ) (month : ℤ) (c : ClimateResult) (soil : SoilDict)
    (hm : 1 ≤ month ∧ month ≤ 12) (hla : -90 ≤ lat ∧ lat ≤ 90)
    (hlo : -180 ≤ lon ∧ lon ≤ 180) :
    (soil.ph = none → soil.n = none → soil.p = none → soil.k = none →
        prepare_input_vector lat lon month (some c) (some soil) =
          .ok ⟨[some (encode_soil_type (compute_soil_label soil) : ℚ), some 6.5, some 180.0,
                some 25.0, some 15.0, some c.temperature, some c.humidity],
               compute_soil_label soil⟩) ∧
    (soil.ph = some none ∨ soil.n = some none ∨ soil.p = some none ∨ soil.k = some none →
        prepare_input_vector lat lon month (some c) (some soil) =
          .error "Some required soil or climate data is missing.") := by
  rw [prepare_input_vector_valid lat lon month (some c) (some soil) hm hla hlo]
  unfold prepare_core
  dsimp only [Option.getD]
  constructor
  · intro hph hn hp hk
    have hv : main_vector c soil =
        [some (encode_soil_type (compute_soil_label soil) : ℚ), some 6.5, some 180.0,
         some 25.0, some 15.0, some c.temperature, some c.humidity] := by
      unfold main_vector
      rw [hph, hn, hp, hk]
      rfl
    unfold build_from_soil
    rw [hv]
    norm_num
  · intro hd
    unfold build_from_soil
    rw [if_pos ?_]
    rcases hd with h | h | h | h
    · exact List.any_eq_true.mpr ⟨pyGet soil.ph 6.5, by simp [main_vector], by rw [h]; rfl⟩
    · exact List.any_eq_true.mpr ⟨pyGet soil.n 15.0, by simp [main_vector], by rw [h]; rfl⟩
    · exact List.any_eq_true.mpr ⟨pyGet soil.p 25.0, by simp [main_vector], by rw [h]; rfl⟩
    · exact List.any_eq_true.mpr ⟨pyGet soil.k 180.0, by simp [main_vector], by rw [h]; rfl⟩

def soil_null_ph : SoilDict :=
  { ph := some none, n := some (some 12), p := some (some 20), k := some (some 150)
    clay_percent := some (some 25), sand_percent := some (some 45)
    silt_percent := some (some 30)
    clay := none, sand := none, silt := none }

/-- Claim C7 counterexample: a soil sample whose `ph` key is present but
null makes the build fail instead of substituting the 6.5 default. -/
theorem chemistry_null_fails_cex :
    prepare_input_vector 41 29 6 (some ⟨22, 65⟩) (some soil_null_ph) =
      .error "Some required soil or climate data is missing." := by
  rw [prepare_input_vector_valid _ _ _ _ _ (by norm_num) (by norm_num) (by norm_num)]
  unfold prepare_core build_from_soil
  dsimp only [Option.getD]
  rw [if_pos ?_]
  exact List.any_eq_true.mpr
    ⟨pyGet soil_null_ph.ph 6.5, by simp [main_vector], by norm_num [soil_null_ph, pyGet]⟩

def soil_no_chem : SoilDict :=
  { ph := none, n := none, p := none, k := none
    clay_percent := some (some 25), sand_percent := some (some 45)
    silt_percent := some (some 30)
    clay := none, sand := none, silt := none }

/-- Witness for C7: all four chemistry keys absent are defaulted and the
build succeeds. -/
theorem chemistry_defaults_witness :
    prepare_input_vector 41 29 6 (some ⟨22, 65⟩) (some soil_no_chem) =
      .ok ⟨[some (encode_soil_type (compute_soil_label soil_no_chem) : ℚ), some 6.5, some 180.0,
            some 25.0, some 15.0, some 22, some 65],
           compute_soil_label soil_no_chem⟩ :=
  (chemistry_defaults 41 29 6 ⟨22, 65⟩ soil_no_chem (by norm_num) (by norm_num)
    (by norm_num)).1 rfl rfl rfl rfl

/-- Claim C8 (amended): `prepare_input_vector` validates `month ∈ [1, 12]`
(rejecting the claimed `month = 0` sentinel), `latitude ∈ [-90, 90]` and
`longitude ∈ [-180, 180]` before using any external data: on a violation it
fails with one of the three validation messages and its result does not
depend on the climate or soil arguments; inputs inside the bounds pass
validation and reach the pipeline body. -/
theorem validation_bounds (lat lon : ℚ) (month : ℤ)
    (c1 c2 : Option ClimateResult) (s1 s2 : Option SoilDict) :
    ((1 ≤ month ∧ month ≤ 12) → (-90 ≤ lat ∧ lat ≤ 90) → (-180 ≤ lon ∧ lon ≤ 180) →
        prepare_input_vector lat lon month c1 s1 = prepare_core c1 s1) ∧
    (¬((1 ≤ month ∧ month ≤ 12) ∧ (-90 ≤ lat ∧ lat ≤ 90) ∧ (-180 ≤ lon ∧ lon ≤ 180)) →
        prepare_input_vector lat lon month c1 s1 = prepare_input_vector lat lon month c2 s2 ∧
        ∃ msg ∈ validation_messages, prepare_input_vector lat lon month c1 s1 = .error msg) := by
  constructor
  · exact fun hm hla hlo => prepare_input_vector_valid lat lon month c1 s1 hm hla hlo
  · intro hbad
    by_cases hm : 1 ≤ month ∧ month ≤ 12
    · by_cases hla : -90 ≤ lat ∧ lat ≤ 90
      · by_cases hlo : -180 ≤ lon ∧ lon ≤ 180
        · exact absurd ⟨hm, hla, hlo⟩ hbad
        · have key : ∀ (c : Option ClimateResult) (s : Option SoilDict),
              prepare_input_vector lat lon month c s =
                .error "Longitude must be between -180 and 180." := by
            intro c s
            unfold prepare_input_vector
            rw [if_neg (not_not_intro hm), if_neg (not_not_intro hla), if_pos hlo]
          exact ⟨(key c1 s1).trans (key c2 s2).symm,
            "Longitude must be between -180 and 180.",
            by simp [validation_messages], key c1 s1⟩
      · have key : ∀ (c : Option ClimateResult) (s : Option SoilDict),
            prepare_input_vector lat lon month c s =
              .error "Latitude must be between -90 and 90." := by
          intro c s
          unfold prepare_input_vector
          rw [if_neg (not_not_intro hm), if_pos hla]
        exact ⟨(key c1 s1).trans (key c2 s2).symm,
          "Latitude must be between -90 and 90.",
          by simp [validation_messages], key c1 s1⟩
    · have key : ∀ (c : Option ClimateResult) (s : Option SoilDict),
          prepare_input_vector lat lon month c s =
            .error "Month must be between 1 and 12." := by
        intro c s
        unfold prepare_input_vector
        rw [if_pos hm]
      exact ⟨(key c1 s1).trans (key c2 s2).symm,
        "Month must be between 1 and 12.",
        by simp [validation_messages], key c1 s1⟩

/-- Claim C8 counterexample: `month = 0` (the claimed use-current-month
sentinel) with in-range coordinates is rejected by validation. -/
theorem month_zero_rejected_cex :
    prepare_input_vector 41.0082 28.9784 0 (some ⟨22, 65⟩) (some default_soil) =
      .error "Month must be between 1 and 12." := by
  unfold prepare_input_vector
  rw [if_pos (by norm_num)]

/-- Witness for C8 at an in-range input. -/
theorem validation_bounds_witness :
    prepare_input_vector 41 29 6 (some ⟨22, 65⟩) (some default_soil) =
      prepare_core (some ⟨22, 65⟩) (some default_soil) :=
  (validation_bounds 41 29 6 (some ⟨22, 65⟩) none (some default_soil) none).1
    (by norm_num) (by norm_num) (by norm_num)

theorem findSome?_flatten {α β : Type} (f : α → Option β) (ls : List (List α)) :
    ls.flatten.findSome? f = ls.findSome? fun l => l.findSome? f := by
  induction ls with
  | nil => rfl
  | cons l ls ih =>
      rw [List.flatten_cons, List.findSome?_append, ih]
      cases h : l.findSome? f <;> simp [List.findSome?_cons, h, Option.or]

theorem search_radii_sorted (max_radius step : ℚ) (hstep : 0 < step) :
    List.Pairwise (· < ·) (search_radii max_radius step) := by
  have hp : List.Pairwise (· < ·) (List.range' 1 ⌊max_radius / step⌋.toNat) :=
    List.pairwise_lt_range' 1 _
  have hm := List.Pairwise.map (S := (· < · : ℚ → ℚ → Prop))
    (fun i : ℕ => step * (i : ℚ))
    (fun a b hab => mul_lt_mul_of_pos_left (by exact_mod_cast hab) hstep) hp
  simpa [search_radii] using hm

/-- Claim C2: the soil resolver queries the exact coordinate first; then, for
radii `step, 2·step, …` (strictly increasing, up to `maxRadius` when it is
a multiple of `step` — `[0.1, …, 0.5]` at the defaults) it probes the 8
offsets in the fixed order, returning the first probe with any non-null
property and probing no further; it returns `None` iff every probe yields
nothing.  All of this is the statement that the resolver equals the first
hit of `findSome?` over the explicitly ordered probe list. -/
theorem soil_fallback_search {α : Type} (query : ℚ → ℚ → Option α)
    (lat lon max_radius step : ℚ) (hstep : 0 < step) :
    get_soil_data_with_fallback query lat lon max_radius step =
        (probe_points lat lon max_radius step).findSome? (fun p => query p.1 p.2) ∧
    (probe_points lat lon max_radius step).head? = some (lat, lon) ∧
    List.Pairwise (· < ·) (search_radii max_radius step) ∧
    (∀ r : ℚ, soil_offsets r =
        [(r, 0), (-r, 0), (0, r), (0, -r), (r, r), (-r, -r), (r, -r), (-r, r)]) ∧
    search_radii 0.5 0.1 = [0.1, 0.2, 0.3, 0.4, 0.5] ∧
    (get_soil_data_with_fallback query lat lon max_radius step = none ↔
        ∀ p ∈ probe_points lat lon max_radius step, query p.1 p.2 = none) := by
  have hmain : get_soil_data_with_fallback query lat lon max_radius step =
      (probe_points lat lon max_radius step).findSome? (fun p => query p.1 p.2) := by
    unfold get_soil_data_with_fallback probe_points
    rw [List.findSome?_cons]
    cases hq : query lat lon with
    | some s => rfl
    | none =>
        rw [findSome?_flatten, List.findSome?_map]
        dsimp only [Function.comp]
        congr 1
  have hradii : search_radii 0.5 0.1 = [0.1, 0.2, 0.3, 0.4, 0.5] := by
    have h5 : (⌊(0.5 : ℚ) / (0.1 : ℚ)⌋).toNat = 5 := by
      have h : ⌊(0.5 : ℚ) / (0.1 : ℚ)⌋ = 5 := by norm_num
      rw [h]
      rfl
    unfold search_radii
    rw [h5, show List.range' 1 5 = [1, 2, 3, 4, 5] from rfl]
    norm_num
  refine ⟨hmain, rfl, search_radii_sorted max_radius step hstep, fun r => rfl, hradii, ?_⟩
  rw [hmain, List.findSome?_eq_none_iff]

def soil_query_wit : ℚ → ℚ → Option ℕ := fun la lo =>
  if la = 1 / 10 ∧ lo = 0 then some 7 else none

/-- Witness for C2 at the default radius and step. -/
theorem soil_fallback_search_witness :
    get_soil_data_with_fallback soil_query_wit 0 0 0.5 0.1 =
        (probe_points 0 0 0.5 0.1).findSome? (fun p => soil_query_wit p.1 p.2) ∧
    (probe_points 0 0 0.5 0.1).head? = some (0, 0) ∧
    List.Pairwise (· < ·) (search_radii 0.5 0.1) ∧
    (∀ r : ℚ, soil_offsets r =
        [(r, 0), (-r, 0), (0, r), (0, -r), (r, r), (-r, -r), (r, -r), (-r, r)]) ∧
    search_radii 0.5 0.1 = [0.1, 0.2, 0.3, 0.4, 0.5] ∧
    (get_soil_data_with_fallback soil_query_wit 0 0 0.5 0.1 = none ↔
        ∀ p ∈ probe_points 0 0 0.5 0.1, soil_query_wit p.1 p.2 = none) :=
  soil_fallback_search soil_query_wit 0 0 0.5 0.1 (by norm_num)

/-- Claim C3 counterexample: the hint-taking classifier does not return
`Unknown` on a null texture fraction — with the hint `"Unknown"` and a null
clay it raises (Python `TypeError` on `None > 40`); and with no hint at all
it raises (`None.capitalize()`, `AttributeError`) instead of applying the
cascade (the claim expects `Loamy` for 25/45/30). -/
theorem texture_null_unknown_cex :
    map_texture_with_hint (some "Unknown") none (some 20) (some 30) = .error () ∧
    map_texture_with_hint none (some 25) (some 45) (some 30) = .error () :=
  ⟨rfl, rfl⟩

/-- Claim C3 (amended): a non-null hint other than `"Unknown"` is returned
capitalized, taking precedence over the thresholds; with hint `"Unknown"`
and non-null fractions the ordered cascade applies exactly as the claim
lists it; but null handling differs from the claim: a null hint always
raises, and with hint `"Unknown"` a null fraction raises exactly when the
cascade first compares it (clay always; sand once clay ≤ 40; silt once
also sand ≤ 70) instead of yielding `Unknown`. -/
theorem texture_hint_classification (tc : String) (c sa si : ℚ) (cl sd st : Option ℚ) :
    (tc ≠ "Unknown" → map_texture_with_hint (some tc) cl sd st = .ok (pyCapitalize tc)) ∧
    (map_texture_with_hint (some "Unknown") (some c) (some sa) (some si) =
        .ok (claimed_cascade c sa si)) ∧
    (map_texture_with_hint none cl sd st = .error ()) ∧
    (map_texture_with_hint (some "Unknown") cl sd st = .error () ↔
        cl = none ∨ ∃ c0, cl = some c0 ∧ c0 ≤ 40 ∧
          (sd = none ∨ ∃ s0, sd = some s0 ∧ s0 ≤ 70 ∧ st = none)) := by
  refine ⟨?_, ?_, rfl, ?_⟩
  · intro h
    unfold map_texture_with_hint
    dsimp only
    rw [if_pos h]
  · show hint_cascade (some c) (some sa) (some si) = .ok (claimed_cascade c sa si)
    simp only [hint_cascade, hint_cascade_rest, claimed_cascade]
    split_ifs <;> rfl
  · show hint_cascade cl sd st = .error () ↔ _
    rcases cl with _ | c0
    · simp [hint_cascade]
    by_cases h40 : c0 > 40
    · have h40n : ¬c0 ≤ 40 := not_le.mpr h40
      simp [hint_cascade, h40, h40n]
    have h40y : c0 ≤ 40 := not_lt.mp h40
    rcases sd with _ | s0
    · simp [hint_cascade, h40, h40y]
    by_cases h70 : s0 > 70
    · have h70n : ¬s0 ≤ 70 := not_le.mpr h70
      simp [hint_cascade, h40, h70, h70n]
    have h70y : s0 ≤ 70 := not_lt.mp h70
    rcases st with _ | t0
    · simp [hint_cascade, h40, h70, h40y, h70y]
    · by_cases h41 : t0 > 40 <;> simp [hint_cascade, h40, h70, h41, h40y, h70y]

/-- Witness for C3: a lowercase hint is returned capitalized. -/
theorem texture_hint_classification_witness :
    map_texture_with_hint (some "loamy") (some 1) (some 2) (some 3) =
      .ok (pyCapitalize "loamy") :=
  (texture_hint_classification "loamy" 1 2 3 (some 1) (some 2) (some 3)).1 (by decide)

/-- Claim C10: whenever `get_partial_soil_data` returns a sample, every
field is a (non-null) number — the `ProcessedSoil` record is total, missing
upstream properties being filled with the fixed constants of
`process_soil_data` — and `p` and `k` are always the constants 20.0 and
200.0, phosphorus and potassium never being among the requested SoilGrids
properties. -/
theorem partial_soil_constants :
    (∀ (resp : Option SoilApiResponse) (s : ProcessedSoil),
        get_partial_soil_data resp = some s → s.p = 20.0 ∧ s.k = 200.0) ∧
    "phosphorus" ∉ soilgrids_properties ∧ "potassium" ∉ soilgrids_properties := by
  refine ⟨?_, by decide, by decide⟩
  intro resp s h
  unfold get_partial_soil_data at h
  split at h
  · exact absurd h (by simp)
  split at h
  · exact absurd h (by simp)
  · exact absurd h (by simp)
  split at h
  · exact absurd h (by simp)
  · exact absurd h (by simp)
  · rw [Option.some.injEq] at h
    subst h
    exact ⟨rfl, rfl⟩

def soil_resp_wit : SoilApiResponse :=
  ⟨some [{ name := some "phh2o"
           depths := some [{ label := "0-5cm", values := some (some 6.5) }]
           d_factor := some 1 }]⟩

def soil_proc_wit : ProcessedSoil := process_soil_data [("phh2o", 6.5 / 1)]

/-- Witness for C10 on a one-layer response. -/
theorem partial_soil_constants_witness :
    soil_proc_wit.p = 20.0 ∧ soil_proc_wit.k = 200.0 :=
  partial_soil_constants.1 (some soil_resp_wit) soil_proc_wit (by
    norm_num [get_partial_soil_data, soil_resp_wit, extract_soil_data, extract_layer,
      soilgrids_properties, soil_proc_wit, List.find?, List.foldlM])

end AgroMind
